import Mathlib

/-!
Overview: vps-mcp-server — shallow embedding and verification.

The repository ships two alternative transport variants of the same MCP
tool server:

* `src/index.mjs` — a hand-rolled HTTP JSON-RPC front-end with its own
  tool registry, `tools/list` and `tools/invoke` handlers (suffix `_ix`
  below);
* `src/unnamed/part_000` — a variant built on the MCP SDK
  (`McpServer` + `server.tool(...)` registrations, suffix `_mcp` below).

Both variants define a `callVps` upstream proxy and four tools
(`vps_run_command`, `vps_list_dir`, `vps_read_file`, `vps_write_file`).
The embedding models the backend (`fetch`) as an oracle
`Backend : String → ReqBody → FetchOutcome`, and every operation that may
reach the network returns, alongside its result, the list of upstream
calls it performed, so that "no network call is made" is a provable
statement (`log = []`).
-/

namespace VpsMcp

/-! Section: JavaScript string/value helpers. -/

/-- JS `s || d` for strings: the empty string is falsy, so `"" || d = d`,
and any non-empty string is returned unchanged. -/
def strOr (s d : String) : String := if s = "" then d else s

/-- JS `v || d` where `v` is a possibly-`undefined` string field of a JSON
object: `undefined` and `""` both fall through to the default `d`. -/
def optOr (v : Option String) (d : String) : String := strOr (v.getD "") d

/-- JS template interpolation `${v}` of a possibly-`undefined` boolean:
`true`/`false`/`undefined`. Used by the `vps_write_file` handler of
`src/index.mjs` (`Success: ${r.success}`). -/
def jsShowOptBool : Option Bool → String
  | some true => "true"
  | some false => "false"
  | none => "undefined"

/-! Section: upstream backend model.

`fetch(url, {method: POST, body})` is modelled as an oracle from the
endpoint path and request body to an outcome: either a transport-level
failure (DNS, connection refused, timeout — the thrown error's message is
`cause`) or an HTTP response. A response carries its status, the result of
reading the body as text (`none` models `res.text()` itself failing), and
the parsed JSON body. No claim exercises a JSON parse failure, so the
parsed body is carried directly. -/

/-- One entry of the `files` array returned by the `/ls` endpoint:
`{name, type}`. -/
structure FileEntry where
  name : String
  type : String

/-- The JSON bodies exchanged with the backend, restricted to the fields
the source ever reads: `success`, `stdout`, `stderr`, `content`, `files`.
`none` models an absent (`undefined`) field. -/
structure VpsJson where
  success : Option Bool
  stdout : Option String
  stderr : Option String
  content : Option String
  files : Option (List FileEntry)

/-- An HTTP response: status code, body-as-text read result (`none` when
`res.text()` rejects), and the parsed JSON body. -/
structure HttpResponse where
  status : Nat
  text : Option String
  json : VpsJson

/-- Outcome of one `fetch` attempt. -/
inductive FetchOutcome where
  | transportError (cause : String)
  | response (resp : HttpResponse)

/-- A request body: the JSON object POSTed to the backend, as a list of
string key/value pairs (`{cmd}`, `{path}`, `{path, content}`). -/
abbrev ReqBody := List (String × String)

/-- The backend oracle standing for `fetch` against `VPS_API_BASE`. -/
abbrev Backend := String → ReqBody → FetchOutcome

/-- A record of one upstream call: endpoint path and request body. -/
abbrev CallRec := String × ReqBody

/-- `res.ok` of the fetch API: status in the inclusive range 200–299. -/
def resOk (status : Nat) : Bool := 200 ≤ status && status ≤ 299

/-! Section: callVps — src/index.mjs lines 20-39.

```js
async function callVps(path, body) {
  const url = VPS_API_BASE + path;
  const res = await fetch(url, {...});
  if (!res.ok) {
    const txt = await res.text().catch(() => "");
    throw new Error(`VPS error HTTP ${res.status}: ${txt}`);
  }
  const json = await res.json();
  if (json.success === false) {
    throw new Error(json.stderr || "VPS returned success=false");
  }
  return json;
}
```

There is no try/catch: a transport-level fetch failure propagates raw out
of `callVps` (its message is just the underlying cause; the `url` variable
is used only to issue the request, never in an error message). Thrown
errors are modelled as `Except.error message`. -/

def callVps_ix (backend : Backend) (path : String) (body : ReqBody) :
    Except String VpsJson × List CallRec :=
  match backend path body with
  | .transportError cause => (.error cause, [(path, body)])
  | .response r =>
      if resOk r.status then
        if r.json.success = some false then
          (.error (optOr r.json.stderr "VPS returned success=false"), [(path, body)])
        else
          (.ok r.json, [(path, body)])
      else
        (.error ("VPS error HTTP " ++ toString r.status ++ ": " ++ r.text.getD ""),
         [(path, body)])

/-! Section: callVps — src/unnamed/part_000 lines 18-43.

Same three layers, but the whole body sits in a `try` whose `catch`
re-raises every error — transport, HTTP-level and application-level alike
— as ``new Error(`VPS API error at ${url}: ${err.message}`)``, where
`url = VPS_API_BASE + path`. The base URL is the `base` parameter. -/

def callVps_mcp (base : String) (backend : Backend) (path : String) (body : ReqBody) :
    Except String VpsJson × List CallRec :=
  let url := base ++ path
  match backend path body with
  | .transportError cause =>
      (.error ("VPS API error at " ++ url ++ ": " ++ cause), [(path, body)])
  | .response r =>
      if resOk r.status then
        if r.json.success = some false then
          (.error ("VPS API error at " ++ url ++ ": " ++
            optOr r.json.stderr "VPS returned success=false"), [(path, body)])
        else
          (.ok r.json, [(path, body)])
      else
        (.error ("VPS API error at " ++ url ++ ": " ++
          ("HTTP " ++ toString r.status ++ ": " ++ r.text.getD "")), [(path, body)])

/-! Section: invocation arguments and zod validation. -/

/-- A JSON value appearing in an invocation's argument mapping. Only
string-ness matters to the declared schemas, so non-string values are
collapsed into `other`. -/
inductive JsVal where
  | str (s : String)
  | other

/-- The raw `params.arguments` mapping of a `tools/invoke` request. -/
abbrev Args := List (String × JsVal)

/-- Property access `args[k]` on the argument object. -/
def lookupArg (args : Args) (k : String) : Option JsVal :=
  (args.find? (fun kv => kv.fst == k)).map (fun kv => kv.snd)

/-- Reading a string argument out of a validated argument object, as the
handlers do by destructuring (`async ({ cmd }) => ...`). After successful
validation the key is present and bound to a string. -/
def getArgStr (args : Args) (k : String) : String :=
  match lookupArg args k with
  | some (.str s) => s
  | _ => ""

/-- A `z.string()` declaration, possibly with a `.min(n)` length
constraint: `z.string()` is `⟨0⟩`, `z.string().min(1)` is `⟨1⟩`. -/
structure ZString where
  minLen : Nat

/-- A parameter shape: the object literal `{cmd: z.string(), ...}` mapping
parameter names to string validators, in declaration order. -/
abbrev Shape := List (String × ZString)

/-- Modelled from the spec: zod's `z.object(shape).parse` semantics are
library code, not part of `src/`. Per §4.1, every declared parameter must
be present and a string, strings must meet the declared minimum length,
and validation fails fast on the first violated constraint. The error
wording is abbreviated; no claim depends on it, only on
acceptance/rejection. -/
def zodCheck : Shape → Args → Except String Unit
  | [], _ => .ok ()
  | (k, zs) :: rest, args =>
      match lookupArg args k with
      | none => .error ("Required: " ++ k)
      | some .other => .error ("Expected string: " ++ k)
      | some (.str s) =>
          if s.length < zs.minLen then
            .error ("String must contain at least " ++ toString zs.minLen ++
              " character(s): " ++ k)
          else zodCheck rest args

/-- Modelled from the spec: `z.object(shape).parse(args)` — runs
`zodCheck` and on success returns the argument object restricted to the
declared keys (zod strips unknown keys by default). -/
def zodParse (shape : Shape) (args : Args) : Except String Args :=
  match zodCheck shape args with
  | .error m => .error m
  | .ok _ => .ok (args.filter (fun kv => shape.any (fun p => p.fst == kv.fst)))

/-! Section: the `schema` field of src/index.mjs.

In `src/index.mjs` each tool's `schema` is the *plain object literal*
`{cmd: z.string()}` (lines 44–46 and analogously for the other tools) —
it is **not** wrapped in `z.object(...)`. A plain object has no `.parse`
method and no `.shape` property, while a real `ZodObject` has both. The
embedding keeps both possibilities apart so that the dynamic errors the
source actually produces are representable:

* calling `tool.schema.parse(...)` on a plain object throws
  `TypeError: tool.schema.parse is not a function`;
* reading `t.schema.shape` on a plain object yields `undefined`, and
  `Object.entries(undefined)` throws
  `TypeError: Cannot convert undefined or null to object`. -/

inductive SchemaVal where
  | zObject (shape : Shape)
  | rawShape (shape : Shape)

/-- Evaluation of `tool.schema.parse(args)` (src/index.mjs line 180):
a `ZodObject` validates; a plain shape object has no `parse` method, so
the call throws a `TypeError`, which the surrounding `try` catches like
any validation failure. -/
def schemaParse : SchemaVal → Args → Except String Args
  | .zObject shape, args => zodParse shape args
  | .rawShape _, _ => .error "tool.schema.parse is not a function"

/-- Evaluation of the property read `t.schema.shape`
(src/index.mjs line 160): defined on a `ZodObject`, `undefined` on a
plain shape object. -/
def schemaShapeProp : SchemaVal → Option Shape
  | .zObject shape => some shape
  | .rawShape _ => none

/-! Section: tool registry and handlers — src/index.mjs lines 41-102. -/

/-- A single content block of a tool result (always kind `text` here). -/
inductive Content where
  | text (s : String)

/-- One entry of the `tools` object of src/index.mjs. -/
structure ToolIx where
  name : String
  description : String
  schema : SchemaVal
  run : Backend → Args → Except String Content × List CallRec

/-- Handler of `vps_run_command` (src/index.mjs lines 47–53). -/
def runHandler_ix (backend : Backend) (args : Args) :
    Except String Content × List CallRec :=
  let cmd := getArgStr args "cmd"
  match callVps_ix backend "/run" [("cmd", cmd)] with
  | (.error m, log) => (.error m, log)
  | (.ok r, log) =>
      (.ok (.text ("CMD: " ++ cmd ++ "\n\nSTDOUT:\n" ++ optOr r.stdout "[empty]" ++
        "\n\nSTDERR:\n" ++ optOr r.stderr "[empty]")), log)

/-- Handler of `vps_list_dir` (src/index.mjs lines 61–71): formats each
file as `"[DIR]  name"` or `"       name"` (five spaces for non-dirs),
joins with newlines, and substitutes `"[empty]"` when the joined string is
empty. -/
def lsHandler_ix (backend : Backend) (args : Args) :
    Except String Content × List CallRec :=
  let path := getArgStr args "path"
  match callVps_ix backend "/ls" [("path", path)] with
  | (.error m, log) => (.error m, log)
  | (.ok r, log) =>
      let lines := String.intercalate "\n" ((r.files.getD []).map
        (fun f => (if f.type = "dir" then "[DIR]" else "     ") ++ "  " ++ f.name))
      (.ok (.text ("Listing: " ++ path ++ "\n\n" ++ strOr lines "[empty]")), log)

/-- Handler of `vps_read_file` (src/index.mjs lines 79–85). -/
def readHandler_ix (backend : Backend) (args : Args) :
    Except String Content × List CallRec :=
  let path := getArgStr args "path"
  match callVps_ix backend "/read" [("path", path)] with
  | (.error m, log) => (.error m, log)
  | (.ok r, log) =>
      (.ok (.text ("File: " ++ path ++ "\n\n" ++ optOr r.content "")), log)

/-- Handler of `vps_write_file` (src/index.mjs lines 94–100). -/
def writeHandler_ix (backend : Backend) (args : Args) :
    Except String Content × List CallRec :=
  let path := getArgStr args "path"
  let content := getArgStr args "content"
  match callVps_ix backend "/write" [("path", path), ("content", content)] with
  | (.error m, log) => (.error m, log)
  | (.ok r, log) =>
      (.ok (.text ("Write: " ++ path ++ "\nSuccess: " ++ jsShowOptBool r.success ++
        "\n\nSTDOUT:\n" ++ optOr r.stdout "" ++ "\nSTDERR:\n" ++ optOr r.stderr "")), log)

/-- The `tools` object of src/index.mjs (lines 41–102), in insertion
order. Every `schema` is a plain shape object (`.rawShape`), exactly as in
the source, where none of the four is wrapped in `z.object(...)`. -/
def runTool_ix : ToolIx :=
  ⟨"vps_run_command", "Run shell command via VPS API", .rawShape [("cmd", ⟨0⟩)], runHandler_ix⟩

def lsTool_ix : ToolIx :=
  ⟨"vps_list_dir", "List directory via VPS API", .rawShape [("path", ⟨0⟩)], lsHandler_ix⟩

def readTool_ix : ToolIx :=
  ⟨"vps_read_file", "Read file via VPS", .rawShape [("path", ⟨0⟩)], readHandler_ix⟩

def writeTool_ix : ToolIx :=
  ⟨"vps_write_file", "Write file via VPS",
    .rawShape [("path", ⟨0⟩), ("content", ⟨0⟩)], writeHandler_ix⟩

def tools_ix : List ToolIx := [runTool_ix, lsTool_ix, readTool_ix, writeTool_ix]

/-- The property names every plain JS object inherits from
`Object.prototype`. The `tools` object of src/index.mjs is an ordinary
object literal, so a property access `tools[name]` at one of these names
yields the inherited member (a function, or `Object.prototype` itself for
`__proto__`) — a truthy value that is not a tool — rather than
`undefined`. -/
def objectProtoNames : List String :=
  ["constructor", "hasOwnProperty", "isPrototypeOf", "propertyIsEnumerable",
   "toLocaleString", "toString", "valueOf", "__defineGetter__",
   "__defineSetter__", "__lookupGetter__", "__lookupSetter__", "__proto__"]

/-- Result of the JS property access `tools[params.name]`
(src/index.mjs line 173): one of the four own entries, a truthy value
inherited from `Object.prototype`, or `undefined`. -/
inductive ToolLookup where
  | own (t : ToolIx)
  | inherited
  | absent

/-- `tools[params.name]` (src/index.mjs line 173), including the
prototype chain: an own entry wins, otherwise an `Object.prototype`
member name yields a truthy inherited value, otherwise `undefined`. -/
def findTool_ix (name : String) : ToolLookup :=
  match tools_ix.find? (fun t => t.name == name) with
  | some t => .own t
  | none => if name ∈ objectProtoNames then .inherited else .absent

/-- A JSON-RPC outcome of the `tools/invoke` method of src/index.mjs:
either `mcpResponse(id, {content: [out]})` or `mcpError(id, message)`
with code −32000 (lines 175, 182, 186), or the outer catch-all error with
code −32001 (line 192) when the handler itself throws. -/
inductive RpcOut where
  | result (content : List Content)
  | rpcError (code : Int) (message : String)

/-- The `tools/invoke` handler of src/index.mjs (lines 172–187): look the
tool up (`Unknown tool` only when the access yields `undefined`; a truthy
value inherited from `Object.prototype` passes the `if (!tool)` guard,
whereupon `tool.schema` is `undefined` and reading `.parse` on it throws
`TypeError: Cannot read properties of undefined (reading 'parse')` inside
the `try`), run `tool.schema.parse` inside a `try` (`Invalid arguments:
...` on any throw), and only then run the handler; a handler throw is
caught by the outer catch (line 191) and rendered with code −32001. The
second component records every upstream call made while answering the
request. -/
def invoke_ix (backend : Backend) (name : String) (args : Args) :
    RpcOut × List CallRec :=
  match findTool_ix name with
  | .absent => (.rpcError (-32000) ("Unknown tool: " ++ name), [])
  | .inherited =>
      (.rpcError (-32000) ("Invalid arguments: " ++
        "Cannot read properties of undefined (reading 'parse')"), [])
  | .own t =>
      match schemaParse t.schema args with
      | .error m => (.rpcError (-32000) ("Invalid arguments: " ++ m), [])
      | .ok validated =>
          match t.run backend validated with
          | (.ok out, log) => (.result [out], log)
          | (.error m, log) => (.rpcError (-32001) m, log)

/-- One entry of the `tools/list` answer of src/index.mjs (lines
154–167): name, description, and the declared parameter names (each typed
`"string"`; `required` is `Object.keys(t.schema.shape)`). -/
structure ListEntry where
  name : String
  description : String
  required : List String

/-- Outcome of the `tools/list` method. -/
inductive ListOut where
  | result (entries : List ListEntry)
  | rpcError (code : Int) (message : String)

/-- The body of the `Object.entries(tools).map(...)` of src/index.mjs
lines 154–167, evaluated left to right: for each tool the property read
`t.schema.shape` is performed; on a plain shape object it yields
`undefined` and the subsequent `Object.entries(undefined)` throws a
`TypeError`, aborting the whole map. -/
def listEntries : List ToolIx → Except String (List ListEntry)
  | [] => .ok []
  | t :: rest =>
      match schemaShapeProp t.schema with
      | none => .error "Cannot convert undefined or null to object"
      | some shape =>
          match listEntries rest with
          | .error m => .error m
          | .ok es => .ok (⟨t.name, t.description, shape.map (fun p => p.fst)⟩ :: es)

/-- The `tools/list` method of src/index.mjs (lines 153–168) together
with the surrounding try/catch (lines 131, 191–193): a successful map is
sent as the result; a throw inside the map is caught by the outer catch
and sent as a JSON-RPC error with code −32001 and the thrown message. -/
def toolsList_ix : ListOut :=
  match listEntries tools_ix with
  | .ok es => .result es
  | .error m => .rpcError (-32001) m

/-! Section: tool registrations — src/unnamed/part_000 lines 55-141.

Each `server.tool(name, description, shape, handler)` registration
declares a raw shape (which the MCP SDK wraps in `z.object`) and an async
handler returning `{content: [{type: "text", text}]}`. The four handlers
below are the source's, with `callVps_mcp` threaded through. -/

/-- Outcome of one tool dispatch in the SDK variant. -/
inductive DispatchOut where
  | result (content : List Content)
  | unknownTool (message : String)
  | invalidArgs (message : String)
  | handlerErr (message : String)

/-- One registration made via `server.tool(...)`. -/
structure ToolMcp where
  name : String
  description : String
  shape : Shape
  run : String → Backend → Args → Except String (List Content) × List CallRec

/-- Handler of `vps_run_command` (src/unnamed/part_000 lines 59–70). -/
def runHandler_mcp (base : String) (backend : Backend) (args : Args) :
    Except String (List Content) × List CallRec :=
  let cmd := getArgStr args "cmd"
  match callVps_mcp base backend "/run" [("cmd", cmd)] with
  | (.error m, log) => (.error m, log)
  | (.ok r, log) =>
      let stdout := optOr r.stdout ""
      let stderr := optOr r.stderr ""
      (.ok [.text ("Command: " ++ cmd ++ "\n\n--- STDOUT ---\n" ++ strOr stdout "[empty]" ++
        "\n\n--- STDERR ---\n" ++ strOr stderr "[empty]")], log)

/-- Handler of `vps_list_dir` (src/unnamed/part_000 lines 78–97): a line
per file (`"[DIR]  name"` or five-space indent), `"[empty]"` when there
are no lines (`lines.length ? lines.join("\n") : "[empty]"`). -/
def lsHandler_mcp (base : String) (backend : Backend) (args : Args) :
    Except String (List Content) × List CallRec :=
  let path := getArgStr args "path"
  match callVps_mcp base backend "/ls" [("path", path)] with
  | (.error m, log) => (.error m, log)
  | (.ok r, log) =>
      let lines := (r.files.getD []).map
        (fun f => (if f.type = "dir" then "[DIR]" else "     ") ++ "  " ++ f.name)
      (.ok [.text ("Directory listing for: " ++ path ++ "\n\n" ++
        (if lines.length ≠ 0 then String.intercalate "\n" lines else "[empty]"))], log)

/-- Handler of `vps_read_file` (src/unnamed/part_000 lines 105–115):
`result.content ?? ""` is nullish coalescing, so an explicitly empty
content string is kept as-is. -/
def readHandler_mcp (base : String) (backend : Backend) (args : Args) :
    Except String (List Content) × List CallRec :=
  let path := getArgStr args "path"
  match callVps_mcp base backend "/read" [("path", path)] with
  | (.error m, log) => (.error m, log)
  | (.ok r, log) =>
      (.ok [.text ("File: " ++ path ++ "\n\n" ++ r.content.getD "")], log)

/-- Handler of `vps_write_file` (src/unnamed/part_000 lines 126–140):
`ok = result.success !== false`; the STDOUT/STDERR sections are emitted
only when the corresponding stream text is non-empty. -/
def writeHandler_mcp (base : String) (backend : Backend) (args : Args) :
    Except String (List Content) × List CallRec :=
  let path := getArgStr args "path"
  let content := getArgStr args "content"
  match callVps_mcp base backend "/write" [("path", path), ("content", content)] with
  | (.error m, log) => (.error m, log)
  | (.ok r, log) =>
      let stdout := optOr r.stdout ""
      let stderr := optOr r.stderr ""
      (.ok [.text ("Write file: " ++ path ++ "\nStatus: " ++
        (if r.success = some false then "failed" else "success") ++ "\n\n" ++
        (if stdout ≠ "" then "STDOUT:\n" ++ stdout ++ "\n\n" else "") ++
        (if stderr ≠ "" then "STDERR:\n" ++ stderr ++ "\n" else ""))], log)

/-- The four registrations of src/unnamed/part_000 in registration order.
`vps_run_command`'s `cmd` and the three `path` parameters are declared
`z.string().min(1)`; `vps_write_file`'s `content` is a plain
`z.string()`. -/
def runTool_mcp : ToolMcp :=
  ⟨"vps_run_command", "Run a shell command on VPS via /run.",
    [("cmd", ⟨1⟩)], runHandler_mcp⟩

def lsTool_mcp : ToolMcp :=
  ⟨"vps_list_dir", "List files and directories on VPS via /ls.",
    [("path", ⟨1⟩)], lsHandler_mcp⟩

def readTool_mcp : ToolMcp :=
  ⟨"vps_read_file", "Read a file via /read.",
    [("path", ⟨1⟩)], readHandler_mcp⟩

def writeTool_mcp : ToolMcp :=
  ⟨"vps_write_file", "Write a file via /write.",
    [("path", ⟨1⟩), ("content", ⟨0⟩)], writeHandler_mcp⟩

def tools_mcp : List ToolMcp := [runTool_mcp, lsTool_mcp, readTool_mcp, writeTool_mcp]

/-- Tool lookup in the SDK's registry. -/
def findTool_mcp (name : String) : Option ToolMcp :=
  tools_mcp.find? (fun t => t.name == name)

/-- Modelled from the spec: the MCP SDK's tool-call dispatch
(`McpServer`'s internal `tools/call` handling) is library code, not under
`src/`. Per §4.1: look the name up (a "tool not found" outcome if
absent), validate the raw arguments against the tool's declared schema
strictly before the handler runs, and only on success invoke the handler
with the validated arguments; a handler failure is surfaced as a distinct
error outcome, never as a success. The schemas and handlers themselves
are the source's (`tools_mcp`). -/
def dispatch_mcp (base : String) (backend : Backend) (name : String) (args : Args) :
    DispatchOut × List CallRec :=
  match findTool_mcp name with
  | none => (.unknownTool ("Tool " ++ name ++ " not found"), [])
  | some t =>
      match zodParse t.shape args with
      | .error m => (.invalidArgs m, [])
      | .ok validated =>
          match t.run base backend validated with
          | (.ok content, log) => (.result content, log)
          | (.error m, log) => (.handlerErr m, log)

/-! Section: substring occurrence.

Several claims speak about a message or a rendered text *containing* some
literal. `strIn sub s` states that `sub` occurs contiguously inside `s`.
A boolean matcher plus a correctness proof makes the predicate decidable,
so concrete (counter-)examples go through `decide`. -/

/-- `sub` occurs as a contiguous substring of `s`. -/
def strIn (sub s : String) : Prop :=
  ∃ a b : List Char, s.data = a ++ sub.data ++ b

/-- Boolean test: `sub` is an initial segment of `l`. -/
def listLeads : List Char → List Char → Bool
  | [], _ => true
  | _ :: _, [] => false
  | c :: cs, d :: ds => c == d && listLeads cs ds

/-- Boolean test: `sub` occurs contiguously inside `l`. -/
def listOccurs (sub l : List Char) : Bool :=
  match l with
  | [] => listLeads sub []
  | _ :: t => listLeads sub l || listOccurs sub t

theorem listLeads_iff (sub l : List Char) :
    listLeads sub l = true ↔ ∃ b, l = sub ++ b := by
  induction sub generalizing l with
  | nil => simp [listLeads]
  | cons c cs ih =>
    cases l with
    | nil => simp [listLeads]
    | cons d ds =>
      simp only [listLeads, Bool.and_eq_true, beq_iff_eq, ih, List.cons_append,
        List.cons.injEq]
      constructor
      · rintro ⟨rfl, b, rfl⟩
        exact ⟨b, rfl, rfl⟩
      · rintro ⟨b, rfl, rfl⟩
        exact ⟨rfl, b, rfl⟩

theorem listOccurs_iff (sub l : List Char) :
    listOccurs sub l = true ↔ ∃ a b, l = a ++ sub ++ b := by
  induction l with
  | nil =>
    simp only [listOccurs, listLeads_iff]
    constructor
    · rintro ⟨b, h⟩
      exact ⟨[], b, by simpa using h⟩
    · rintro ⟨a, b, h⟩
      rcases List.append_eq_nil.mp h.symm with ⟨h1, h2⟩
      rcases List.append_eq_nil.mp h1 with ⟨rfl, rfl⟩
      exact ⟨[], by simp⟩
  | cons c t ih =>
    simp only [listOccurs, Bool.or_eq_true, listLeads_iff, ih]
    constructor
    · rintro (⟨b, h⟩ | ⟨a, b, h⟩)
      · exact ⟨[], b, by simpa using h⟩
      · exact ⟨c :: a, b, by simp [h]⟩
    · rintro ⟨a, b, h⟩
      cases a with
      | nil => exact Or.inl ⟨b, by simpa using h⟩
      | cons x xs =>
        have h' : c :: t = x :: (xs ++ sub ++ b) := by simpa using h
        rcases List.cons.inj h' with ⟨rfl, ht⟩
        exact Or.inr ⟨xs, b, ht⟩

instance (sub s : String) : Decidable (strIn sub s) :=
  decidable_of_iff (listOccurs sub.data s.data = true) (listOccurs_iff sub.data s.data)

theorem strIn_here (s : String) : strIn s s := ⟨[], [], by simp⟩

theorem strIn_left (sub x y : String) (h : strIn sub x) : strIn sub (x ++ y) := by
  obtain ⟨a, b, hx⟩ := h
  exact ⟨a, b ++ y.data, by rw [String.data_append, hx]; simp⟩

theorem strIn_right (sub x y : String) (h : strIn sub y) : strIn sub (x ++ y) := by
  obtain ⟨a, b, hy⟩ := h
  exact ⟨x.data ++ a, b, by rw [String.data_append, hy]; simp⟩

/-! Section: the claims. -/

/-- Claim C1 (confirmed). Dispatching `vps_read_file` with an argument
mapping lacking the required `path` yields an invalid-arguments outcome in
both variants, with an empty upstream-call log: in `src/index.mjs` the
`tool.schema.parse` call throws before the handler can run (lines
178–186), and in the SDK variant zod rejects the missing required key —
either way the handler never runs and no network call is made. -/
theorem invoke_read_file_missing_path_rejected
    (base : String) (backend : Backend) (args : Args)
    (h : lookupArg args "path" = none) :
    (∃ m, invoke_ix backend "vps_read_file" args =
      (.rpcError (-32000) ("Invalid arguments: " ++ m), [])) ∧
    (∃ m, dispatch_mcp base backend "vps_read_file" args = (.invalidArgs m, [])) := by
  constructor
  · exact ⟨"tool.schema.parse is not a function", rfl⟩
  · refine ⟨"Required: path", ?_⟩
    simp [dispatch_mcp, findTool_mcp, tools_mcp, runTool_mcp, lsTool_mcp, readTool_mcp,
      zodParse, zodCheck, h]

/-- Witness for C1: the empty argument mapping against a backend stub that
would record any request as a transport outcome; the call log stays
empty. -/
theorem invoke_read_file_missing_path_rejected_witness :
    lookupArg ([] : Args) "path" = none ∧
    ((∃ m, invoke_ix (fun _ _ => .transportError "stub must not be reached")
        "vps_read_file" [] = (.rpcError (-32000) ("Invalid arguments: " ++ m), [])) ∧
     (∃ m, dispatch_mcp "http://backend" (fun _ _ => .transportError "stub must not be reached")
        "vps_read_file" [] = (.invalidArgs m, []))) :=
  ⟨rfl, invoke_read_file_missing_path_rejected "http://backend"
    (fun _ _ => .transportError "stub must not be reached") [] rfl⟩

/-- Claim C2 (corrected), counterexample. In the SDK variant
(src/unnamed/part_000), the application-level throw is itself caught by
the surrounding try/catch and re-raised with the URL wrapper, so for a
200 response with body `{success: false, stderr: "boom"}` the error
message is not exactly `"boom"`. -/
theorem stderr_message_wrapped_cx :
    (callVps_mcp "http://vps" (fun _ _ => .response ⟨200, some "",
        ⟨some false, none, some "boom", none, none⟩⟩) "/run" []).fst =
      .error "VPS API error at http://vps/run: boom" ∧
    ("VPS API error at http://vps/run: boom" : String) ≠ "boom" :=
  ⟨rfl, by decide⟩

/-- Claim C2 (corrected), amended. For a 200 response whose body has
`success: false` and a non-empty `stderr` value `e`: the plain-HTTP
variant's `callVps` raises exactly `e` as the message, while the SDK
variant raises `"VPS API error at <url>: " ++ e` — the stderr text is
used verbatim but prefixed with the URL wrapper. -/
theorem stderr_message_verbatim
    (base p : String) (b : ReqBody) (txt : Option String)
    (e : String) (o1 o2 : Option String) (ofl : Option (List FileEntry))
    (he : e ≠ "") :
    (callVps_ix (fun _ _ => .response ⟨200, txt, ⟨some false, o1, some e, o2, ofl⟩⟩) p b).fst =
      .error e ∧
    (callVps_mcp base (fun _ _ => .response ⟨200, txt, ⟨some false, o1, some e, o2, ofl⟩⟩) p b).fst =
      .error ("VPS API error at " ++ (base ++ p) ++ ": " ++ e) := by
  constructor <;> simp [callVps_ix, callVps_mcp, resOk, optOr, strOr, he]

/-- Witness for C2's amended theorem at `stderr = "boom"`. -/
theorem stderr_message_verbatim_witness :
    ("boom" : String) ≠ "" ∧
    ((callVps_ix (fun _ _ => .response ⟨200, some "",
        ⟨some false, none, some "boom", none, none⟩⟩) "/run" []).fst = .error "boom" ∧
     (callVps_mcp "http://vps" (fun _ _ => .response ⟨200, some "",
        ⟨some false, none, some "boom", none, none⟩⟩) "/run" []).fst =
      .error ("VPS API error at " ++ ("http://vps" ++ "/run") ++ ": " ++ "boom")) :=
  ⟨by decide, stderr_message_verbatim "http://vps" "/run" [] (some "") "boom" none none none
    (by decide)⟩

/-- Claim C3 (corrected), counterexample. In `src/index.mjs`, `callVps`
has no try/catch: a transport failure propagates raw, with a message that
is just the underlying cause — at this concrete input the message does not
even contain the endpoint path, hence not the attempted URL either. -/
theorem transport_error_unwrapped_cx :
    (callVps_ix (fun _ _ => .transportError "getaddrinfo ENOTFOUND example.invalid")
        "/run" []).fst = .error "getaddrinfo ENOTFOUND example.invalid" ∧
    ¬ strIn "/run" "getaddrinfo ENOTFOUND example.invalid" :=
  ⟨rfl, by decide⟩

/-- Claim C3 (corrected), amended. On a transport failure, the SDK
variant's `callVps` raises a normalized error whose message wraps both the
attempted URL (`base ++ path`) and the underlying cause; the plain-HTTP
variant's `callVps` lets the raw fault (message = the cause alone)
propagate, to be normalized only by the transport loop's catch-all. -/
theorem transport_error_normalization
    (base p cause : String) (b : ReqBody) :
    ((callVps_mcp base (fun _ _ => .transportError cause) p b).fst =
        .error ("VPS API error at " ++ (base ++ p) ++ ": " ++ cause) ∧
      strIn (base ++ p) ("VPS API error at " ++ (base ++ p) ++ ": " ++ cause) ∧
      strIn cause ("VPS API error at " ++ (base ++ p) ++ ": " ++ cause)) ∧
    (callVps_ix (fun _ _ => .transportError cause) p b).fst = .error cause := by
  refine ⟨⟨rfl, ?_, ?_⟩, rfl⟩
  · exact strIn_left _ _ _ (strIn_left _ _ _ (strIn_right _ _ _ (strIn_here _)))
  · exact strIn_right _ _ _ (strIn_here _)

/-- Claim C4 (confirmed). For a non-2xx response, both variants raise an
error whose message carries the numeric status code and the response body
read as plain text, where a failed body read (`txt = none`) contributes
the empty string instead of throwing. -/
theorem http_error_message_status_body
    (base p : String) (b : ReqBody) (status : Nat) (txt : Option String) (j : VpsJson)
    (h : resOk status = false) :
    (callVps_ix (fun _ _ => .response ⟨status, txt, j⟩) p b).fst =
      .error ("VPS error HTTP " ++ toString status ++ ": " ++ txt.getD "") ∧
    (callVps_mcp base (fun _ _ => .response ⟨status, txt, j⟩) p b).fst =
      .error ("VPS API error at " ++ (base ++ p) ++ ": " ++
        ("HTTP " ++ toString status ++ ": " ++ txt.getD "")) := by
  constructor <;> simp [callVps_ix, callVps_mcp, h]

/-- Witness for C4 at HTTP 500 with an unreadable body: the message
contains `"500"` and the body contributes the empty string. -/
theorem http_error_message_status_body_witness :
    resOk 500 = false ∧
    ((callVps_ix (fun _ _ => .response ⟨500, none, ⟨none, none, none, none, none⟩⟩)
        "/run" []).fst =
      .error ("VPS error HTTP " ++ toString 500 ++ ": " ++ (none : Option String).getD "") ∧
     (callVps_mcp "http://vps" (fun _ _ => .response ⟨500, none, ⟨none, none, none, none, none⟩⟩)
        "/run" []).fst =
      .error ("VPS API error at " ++ ("http://vps" ++ "/run") ++ ": " ++
        ("HTTP " ++ toString 500 ++ ": " ++ (none : Option String).getD ""))) ∧
    strIn "500" ("VPS error HTTP " ++ toString 500 ++ ": " ++ (none : Option String).getD "") :=
  ⟨by decide,
   http_error_message_status_body "http://vps" "/run" [] 500 none
     ⟨none, none, none, none, none⟩ (by decide),
   by decide⟩

/-- Claim C5 (corrected), counterexample. `"toString"` is not one of the
four registered tools, yet `tools["toString"]` in src/index.mjs finds the
inherited `Object.prototype.toString` — a truthy value — so the
unknown-tool branch is skipped; the handler then reads `.parse` off
`tool.schema` (which is `undefined` on the inherited function) and the
resulting TypeError is rendered as an invalid-arguments error that
identifies neither the name nor an unknown tool. -/
theorem unknown_tool_proto_name_cx :
    ("toString" : String) ∉
      ["vps_run_command", "vps_list_dir", "vps_read_file", "vps_write_file"] ∧
    invoke_ix (fun _ _ => .transportError "stub") "toString" [] =
      (.rpcError (-32000) ("Invalid arguments: " ++
        "Cannot read properties of undefined (reading 'parse')"), []) ∧
    ¬ strIn "toString"
      ("Invalid arguments: " ++ "Cannot read properties of undefined (reading 'parse')") ∧
    ¬ strIn "Unknown tool"
      ("Invalid arguments: " ++ "Cannot read properties of undefined (reading 'parse')") :=
  ⟨by decide, rfl, by decide, by decide⟩

/-- Claim C5 (corrected), amended. For any name outside the four-tool
catalog, dispatch never silently no-ops, never returns a success result,
and makes no upstream call (empty call log) in either variant. The
plain-HTTP variant answers `"Unknown tool: " ++ name` exactly when the
name is also no `Object.prototype` member; at a prototype-inherited name
(e.g. `toString`, `__proto__`) the property access is truthy, so it
instead answers with the invalid-arguments rendering of the TypeError
from `tool.schema.parse`. The SDK variant reports a tool-not-found
message containing the name for every unregistered name. -/
theorem unknown_tool_dispatch_outcomes
    (base : String) (backend : Backend) (name : String) (args : Args)
    (h : name ∉ ["vps_run_command", "vps_list_dir", "vps_read_file", "vps_write_file"]) :
    ((name ∉ objectProtoNames →
        invoke_ix backend name args = (.rpcError (-32000) ("Unknown tool: " ++ name), [])) ∧
     (name ∈ objectProtoNames →
        invoke_ix backend name args = (.rpcError (-32000) ("Invalid arguments: " ++
          "Cannot read properties of undefined (reading 'parse')"), []))) ∧
    (∃ m, dispatch_mcp base backend name args = (.unknownTool m, []) ∧ strIn name m) := by
  simp only [List.mem_cons, List.not_mem_nil, or_false, not_or] at h
  obtain ⟨h1, h2, h3, h4⟩ := h
  have e1 : (("vps_run_command" : String) == name) = false :=
    beq_eq_false_iff_ne.mpr (Ne.symm h1)
  have e2 : (("vps_list_dir" : String) == name) = false :=
    beq_eq_false_iff_ne.mpr (Ne.symm h2)
  have e3 : (("vps_read_file" : String) == name) = false :=
    beq_eq_false_iff_ne.mpr (Ne.symm h3)
  have e4 : (("vps_write_file" : String) == name) = false :=
    beq_eq_false_iff_ne.mpr (Ne.symm h4)
  have hfind : tools_ix.find? (fun t => t.name == name) = none := by
    simp [tools_ix, runTool_ix, lsTool_ix, readTool_ix, writeTool_ix,
      List.find?, e1, e2, e3, e4]
  have hmcp : findTool_mcp name = none := by
    simp [findTool_mcp, tools_mcp, runTool_mcp, lsTool_mcp, readTool_mcp, writeTool_mcp,
      List.find?, e1, e2, e3, e4]
  refine ⟨⟨?_, ?_⟩, "Tool " ++ name ++ " not found", ?_, ?_⟩
  · intro hn
    simp [invoke_ix, findTool_ix, hfind, hn]
  · intro hn
    simp [invoke_ix, findTool_ix, hfind, hn]
  · simp [dispatch_mcp, hmcp]
  · exact strIn_left _ _ _ (strIn_right _ _ _ (strIn_here _))

/-- Witness for C5's amended theorem at the name `"nonexistent_tool"`
(which is neither registered nor an `Object.prototype` member) and the
empty argument mapping. -/
theorem unknown_tool_dispatch_outcomes_witness :
    ("nonexistent_tool" : String) ∉
      ["vps_run_command", "vps_list_dir", "vps_read_file", "vps_write_file"] ∧
    (((("nonexistent_tool" : String) ∉ objectProtoNames →
        invoke_ix (fun _ _ => .transportError "stub") "nonexistent_tool" [] =
          (.rpcError (-32000) ("Unknown tool: " ++ "nonexistent_tool"), [])) ∧
      (("nonexistent_tool" : String) ∈ objectProtoNames →
        invoke_ix (fun _ _ => .transportError "stub") "nonexistent_tool" [] =
          (.rpcError (-32000) ("Invalid arguments: " ++
            "Cannot read properties of undefined (reading 'parse')"), []))) ∧
     (∃ m, dispatch_mcp "http://backend" (fun _ _ => .transportError "stub")
        "nonexistent_tool" [] = (.unknownTool m, []) ∧ strIn "nonexistent_tool" m)) :=
  ⟨by decide, unknown_tool_dispatch_outcomes "http://backend"
    (fun _ _ => .transportError "stub") "nonexistent_tool" [] (by decide)⟩

/-- Claim C8 (code bug). In `src/index.mjs` the `tools/list` method never
returns the tool catalog: each tool's `schema` is a plain object literal,
so `t.schema.shape` is `undefined` and `Object.entries(t.schema.shape)`
throws a `TypeError` on the very first tool; the outer catch turns the
request into a JSON-RPC error with code −32001 instead of the four tool
names. -/
theorem tools_list_throws_type_error :
    toolsList_ix = .rpcError (-32001) "Cannot convert undefined or null to object" := rfl

/-- Claim C9 (confirmed). In the SDK variant, each parameter declared
`z.string().min(1)` — `cmd` of `vps_run_command` and `path` of the three
file tools — rejects the empty string: dispatch fails validation with an
invalid-arguments outcome and makes no upstream call, for any backend and
any `content` string. -/
theorem empty_string_param_rejected
    (base : String) (backend : Backend) (c : String) :
    dispatch_mcp base backend "vps_run_command" [("cmd", .str "")] =
      (.invalidArgs "String must contain at least 1 character(s): cmd", []) ∧
    dispatch_mcp base backend "vps_list_dir" [("path", .str "")] =
      (.invalidArgs "String must contain at least 1 character(s): path", []) ∧
    dispatch_mcp base backend "vps_read_file" [("path", .str "")] =
      (.invalidArgs "String must contain at least 1 character(s): path", []) ∧
    dispatch_mcp base backend "vps_write_file" [("path", .str ""), ("content", .str c)] =
      (.invalidArgs "String must contain at least 1 character(s): path", []) :=
  ⟨rfl, rfl, rfl, rfl⟩

/-- Claim C10 (confirmed). A 200 response with `success: false` and
`stderr` present but empty produces the generic fallback, exactly as when
`stderr` is absent: the plain-HTTP variant's message is exactly
`"VPS returned success=false"`; the SDK variant wraps the same fallback in
its URL prefix, and its outcome for `stderr: ""` is identical to its
outcome for an absent `stderr`. -/
theorem empty_stderr_uses_fallback
    (base p : String) (b : ReqBody) (txt : Option String)
    (o1 o2 : Option String) (ofl : Option (List FileEntry)) :
    (callVps_ix (fun _ _ => .response ⟨200, txt, ⟨some false, o1, some "", o2, ofl⟩⟩) p b).fst =
      .error "VPS returned success=false" ∧
    (callVps_mcp base (fun _ _ => .response ⟨200, txt, ⟨some false, o1, some "", o2, ofl⟩⟩) p b).fst =
      .error ("VPS API error at " ++ (base ++ p) ++ ": " ++ "VPS returned success=false") ∧
    callVps_mcp base (fun _ _ => .response ⟨200, txt, ⟨some false, o1, some "", o2, ofl⟩⟩) p b =
      callVps_mcp base (fun _ _ => .response ⟨200, txt, ⟨some false, o1, none, o2, ofl⟩⟩) p b := by
  refine ⟨?_, ?_, ?_⟩ <;> simp [callVps_ix, callVps_mcp, resOk, optOr, strOr]

/-- Claim C7 (corrected), counterexample. The `vps_write_file` handler of
`src/index.mjs` (lines 94–100) renders `Success: ${r.success}` — i.e.
`"Success: true"` — so at the claim's exact input its result text does not
contain `"Status: success"`. -/
theorem write_file_status_label_cx :
    (writeHandler_ix (fun _ _ => .response ⟨200, some "",
        ⟨some true, some "ok", none, none, none⟩⟩)
      [("path", .str "/tmp/a"), ("content", .str "x")]).fst =
      .ok (.text "Write: /tmp/a\nSuccess: true\n\nSTDOUT:\nok\nSTDERR:\n") ∧
    ¬ strIn "Status: success" "Write: /tmp/a\nSuccess: true\n\nSTDOUT:\nok\nSTDERR:\n" :=
  ⟨rfl, by decide⟩

/-- Claim C7 (corrected), amended. Invoking `vps_write_file` with
`{path: "/tmp/a", content: "x"}` against a backend answering 200 with
`{success: true, stdout: "ok"}`: in the SDK variant the single text block
contains both `"Status: success"` and `"STDOUT:\nok"`; the plain-HTTP
variant's handler renders `"Success: true"` in place of
`"Status: success"` (its text still contains `"STDOUT:\nok"`). -/
theorem write_file_success_result :
    (∃ t, dispatch_mcp "http://b"
        (fun _ _ => .response ⟨200, some "", ⟨some true, some "ok", none, none, none⟩⟩)
        "vps_write_file" [("path", .str "/tmp/a"), ("content", .str "x")] =
        (.result [.text t], [("/write", [("path", "/tmp/a"), ("content", "x")])]) ∧
      strIn "Status: success" t ∧ strIn "STDOUT:\nok" t) ∧
    (∃ t, (writeHandler_ix
        (fun _ _ => .response ⟨200, some "", ⟨some true, some "ok", none, none, none⟩⟩)
        [("path", .str "/tmp/a"), ("content", .str "x")]).fst = .ok (.text t) ∧
      strIn "STDOUT:\nok" t ∧ strIn "Success: true" t) :=
  ⟨⟨"Write file: /tmp/a\nStatus: success\n\nSTDOUT:\nok\n\n", rfl, by decide, by decide⟩,
   ⟨"Write: /tmp/a\nSuccess: true\n\nSTDOUT:\nok\nSTDERR:\n", rfl, by decide, by decide⟩⟩

/-- Claim C6 (corrected), counterexample. `vps_read_file` is one of the
four registered tools, yet a successful dispatch of it (SDK variant,
valid `path`, backend success) yields a text block with no stdout or
stderr marker at all — the claim's "for each of the four registered tool
names" fails. -/
theorem read_file_no_stdout_marker_cx :
    dispatch_mcp "http://b"
      (fun _ _ => .response ⟨200, some "", ⟨some true, none, none, some "hello", none⟩⟩)
      "vps_read_file" [("path", .str "/tmp/a")] =
      (.result [.text "File: /tmp/a\n\nhello"], [("/read", [("path", "/tmp/a")])]) ∧
    ¬ strIn "STDOUT" "File: /tmp/a\n\nhello" ∧
    ¬ strIn "STDERR" "File: /tmp/a\n\nhello" ∧
    ¬ strIn "stdout" "File: /tmp/a\n\nhello" ∧
    ¬ strIn "stderr" "File: /tmp/a\n\nhello" ∧
    ¬ strIn "[empty]" "File: /tmp/a\n\nhello" :=
  ⟨rfl, by decide, by decide, by decide, by decide, by decide⟩

/-- Claim C6 (corrected), amended. Successful dispatches (SDK variant,
valid arguments, backend success) return a single text block containing
the literal command or path; only `vps_run_command` additionally carries
both stream markers with `"[empty]"` substituted for a blank stream.
`vps_list_dir` substitutes `"[empty]"` only for an empty listing,
`vps_read_file` shows only the file content, and `vps_write_file` emits
an `"STDOUT:"` section only when stdout is non-blank. -/
theorem tool_result_text_formats
    (base cmd pth ctn : String) (txt : Option String) (j : VpsJson)
    (hc : 1 ≤ cmd.length) (hp : 1 ≤ pth.length) (hj : ¬ (j.success = some false)) :
    (∃ t, dispatch_mcp base (fun _ _ => .response ⟨200, txt, j⟩) "vps_run_command"
        [("cmd", .str cmd)] = (.result [.text t], [("/run", [("cmd", cmd)])]) ∧
      strIn cmd t ∧ strIn "--- STDOUT ---" t ∧ strIn "--- STDERR ---" t ∧
      (optOr j.stdout "" = "" → strIn "[empty]" t) ∧
      (optOr j.stderr "" = "" → strIn "[empty]" t)) ∧
    (∃ t, dispatch_mcp base (fun _ _ => .response ⟨200, txt, j⟩) "vps_list_dir"
        [("path", .str pth)] = (.result [.text t], [("/ls", [("path", pth)])]) ∧
      strIn pth t ∧ (j.files.getD [] = [] → strIn "[empty]" t)) ∧
    (∃ t, dispatch_mcp base (fun _ _ => .response ⟨200, txt, j⟩) "vps_read_file"
        [("path", .str pth)] = (.result [.text t], [("/read", [("path", pth)])]) ∧
      strIn pth t) ∧
    (∃ t, dispatch_mcp base (fun _ _ => .response ⟨200, txt, j⟩) "vps_write_file"
        [("path", .str pth), ("content", .str ctn)] =
        (.result [.text t], [("/write", [("path", pth), ("content", ctn)])]) ∧
      strIn pth t ∧
      (optOr j.stdout "" ≠ "" → strIn ("STDOUT:\n" ++ optOr j.stdout "") t)) := by
  refine ⟨⟨"Command: " ++ cmd ++ "\n\n--- STDOUT ---\n" ++ strOr (optOr j.stdout "") "[empty]" ++
      "\n\n--- STDERR ---\n" ++ strOr (optOr j.stderr "") "[empty]", ?_, ?_, ?_, ?_, ?_, ?_⟩,
    ⟨"Directory listing for: " ++ pth ++ "\n\n" ++
      (if ((j.files.getD []).map (fun f =>
          (if f.type = "dir" then "[DIR]" else "     ") ++ "  " ++ f.name)).length ≠ 0
        then String.intercalate "\n" ((j.files.getD []).map (fun f =>
          (if f.type = "dir" then "[DIR]" else "     ") ++ "  " ++ f.name))
        else "[empty]"), ?_, ?_, ?_⟩,
    ⟨"File: " ++ pth ++ "\n\n" ++ j.content.getD "", ?_, ?_⟩,
    ⟨"Write file: " ++ pth ++ "\nStatus: " ++ "success" ++ "\n\n" ++
      (if optOr j.stdout "" ≠ "" then "STDOUT:\n" ++ optOr j.stdout "" ++ "\n\n" else "") ++
      (if optOr j.stderr "" ≠ "" then "STDERR:\n" ++ optOr j.stderr "" ++ "\n" else ""),
      ?_, ?_, ?_⟩⟩
  · simp [dispatch_mcp, findTool_mcp, tools_mcp, runTool_mcp, zodParse, zodCheck, lookupArg,
      Nat.not_lt.mpr hc, List.filter, runHandler_mcp, getArgStr, callVps_mcp, resOk, hj]
  · exact strIn_left _ _ _ (strIn_left _ _ _ (strIn_left _ _ _ (strIn_left _ _ _
      (strIn_right _ _ _ (strIn_here _)))))
  · exact strIn_left _ _ _ (strIn_left _ _ _ (strIn_left _ _ _
      (strIn_right _ _ _ (by decide))))
  · exact strIn_left _ _ _ (strIn_right _ _ _ (by decide))
  · intro h
    have hx : strOr (optOr j.stdout "") "[empty]" = "[empty]" := by simp [h, strOr]
    rw [hx]
    exact strIn_left _ _ _ (strIn_left _ _ _ (strIn_right _ _ _ (strIn_here _)))
  · intro h
    have hx : strOr (optOr j.stderr "") "[empty]" = "[empty]" := by simp [h, strOr]
    rw [hx]
    exact strIn_right _ _ _ (strIn_here _)
  · simp [dispatch_mcp, findTool_mcp, tools_mcp, runTool_mcp, lsTool_mcp, readTool_mcp,
      writeTool_mcp, zodParse, zodCheck, lookupArg, Nat.not_lt.mpr hp, List.filter,
      lsHandler_mcp, getArgStr, callVps_mcp, resOk, hj]
  · exact strIn_left _ _ _ (strIn_left _ _ _ (strIn_right _ _ _ (strIn_here _)))
  · intro h
    rw [h]
    rw [if_neg (by simp)]
    exact strIn_right _ _ _ (strIn_here _)
  · simp [dispatch_mcp, findTool_mcp, tools_mcp, runTool_mcp, lsTool_mcp, readTool_mcp,
      writeTool_mcp, zodParse, zodCheck, lookupArg, Nat.not_lt.mpr hp, List.filter,
      readHandler_mcp, getArgStr, callVps_mcp, resOk, hj]
  · exact strIn_left _ _ _ (strIn_left _ _ _ (strIn_right _ _ _ (strIn_here _)))
  · simp [dispatch_mcp, findTool_mcp, tools_mcp, runTool_mcp, lsTool_mcp, readTool_mcp,
      writeTool_mcp, zodParse, zodCheck, lookupArg, Nat.not_lt.mpr hp, List.filter,
      writeHandler_mcp, getArgStr, callVps_mcp, resOk, hj]
  · exact strIn_left _ _ _ (strIn_left _ _ _ (strIn_left _ _ _ (strIn_left _ _ _
      (strIn_left _ _ _ (strIn_right _ _ _ (strIn_here _))))))
  · intro h
    rw [if_pos h]
    exact strIn_left _ _ _ (strIn_right _ _ _ (strIn_left _ _ _ (strIn_here _)))

/-- Witness for C6's amended theorem: `cmd = "ls"`, `path = "/tmp/a"`,
`content = "x"`, backend success with blank stdout, absent stderr, empty
file list and empty content. -/
theorem tool_result_text_formats_witness :
    1 ≤ ("ls" : String).length ∧ 1 ≤ ("/tmp/a" : String).length ∧
    ¬ ((some true : Option Bool) = some false) ∧
    ((∃ t, dispatch_mcp "http://b"
        (fun _ _ => .response ⟨200, some "", ⟨some true, some "", none, some "", some []⟩⟩)
        "vps_run_command" [("cmd", .str "ls")] =
        (.result [.text t], [("/run", [("cmd", "ls")])]) ∧
      strIn "ls" t ∧ strIn "--- STDOUT ---" t ∧ strIn "--- STDERR ---" t ∧
      (optOr (some "") "" = "" → strIn "[empty]" t) ∧
      (optOr none "" = "" → strIn "[empty]" t)) ∧
    (∃ t, dispatch_mcp "http://b"
        (fun _ _ => .response ⟨200, some "", ⟨some true, some "", none, some "", some []⟩⟩)
        "vps_list_dir" [("path", .str "/tmp/a")] =
        (.result [.text t], [("/ls", [("path", "/tmp/a")])]) ∧
      strIn "/tmp/a" t ∧
      ((some ([] : List FileEntry)).getD [] = [] → strIn "[empty]" t)) ∧
    (∃ t, dispatch_mcp "http://b"
        (fun _ _ => .response ⟨200, some "", ⟨some true, some "", none, some "", some []⟩⟩)
        "vps_read_file" [("path", .str "/tmp/a")] =
        (.result [.text t], [("/read", [("path", "/tmp/a")])]) ∧
      strIn "/tmp/a" t) ∧
    (∃ t, dispatch_mcp "http://b"
        (fun _ _ => .response ⟨200, some "", ⟨some true, some "", none, some "", some []⟩⟩)
        "vps_write_file" [("path", .str "/tmp/a"), ("content", .str "x")] =
        (.result [.text t], [("/write", [("path", "/tmp/a"), ("content", "x")])]) ∧
      strIn "/tmp/a" t ∧
      (optOr (some "") "" ≠ "" → strIn ("STDOUT:\n" ++ optOr (some "") "") t))) :=
  ⟨by decide, by decide, by decide,
   tool_result_text_formats "http://b" "ls" "/tmp/a" "x" (some "")
     ⟨some true, some "", none, some "", some []⟩ (by decide) (by decide) (by decide)⟩

end VpsMcp
